import Mathlib

/-!
Verification of the heating-economics model in `src/app.py`
(`Heizverbauch_Simulator_beta_Version`).

The model is a set of pure arithmetic formulas over plain numbers.  We embed
them shallowly over `ℚ`, which represents the exact arithmetic the formulas
denote; each definition below mirrors one Python function (or inline formula)
from `src/app.py`, keeping the source's names.
-/

namespace HeizApp

/-- `jahres_heizwaermebedarf` (src/app.py, lines 41-42):
annual heat demand `kwh_pro_m2a * wohnflaeche_m2`. -/
def jahres_heizwaermebedarf (kwh_pro_m2a wohnflaeche_m2 : ℚ) : ℚ :=
  kwh_pro_m2a * wohnflaeche_m2

/-- `oel_verbrauch_l` (src/app.py, lines 44-45):
oil consumption in liters `q_h_kwh / (eta * heizwert_kwh_l)`. -/
def oel_verbrauch_l (q_h_kwh heizwert_kwh_l eta : ℚ) : ℚ :=
  q_h_kwh / (eta * heizwert_kwh_l)

/-- `gas_verbrauch_m3` (src/app.py, lines 47-48):
gas consumption in m³ `q_h_kwh / (eta * heizwert_kwh_m3)`. -/
def gas_verbrauch_m3 (q_h_kwh heizwert_kwh_m3 eta : ℚ) : ℚ :=
  q_h_kwh / (eta * heizwert_kwh_m3)

/-- `wp_strombedarf_kwh` (src/app.py, lines 50-51):
heat-pump electricity demand `q_h_kwh / jaz`. -/
def wp_strombedarf_kwh (q_h_kwh jaz : ℚ) : ℚ :=
  q_h_kwh / jaz

/-- `pv_jahreserzeugung_kwh` (src/app.py, lines 53-54):
annual solar generation `pv_kwp * spez_ertrag`. -/
def pv_jahreserzeugung_kwh (pv_kwp spez_ertrag : ℚ) : ℚ :=
  pv_kwp * spez_ertrag

/-- `kosten_wp` (src/app.py, lines 56-59): heat-pump annual cost.
`pv_kwh = strombedarf_wp * pv_deck`, `netz_kwh = max(strombedarf_wp - pv_kwh, 0)`,
result `pv_kwh * lcoe_pv + netz_kwh * strompreis`. -/
def kosten_wp (strombedarf_wp pv_deck strompreis lcoe_pv : ℚ) : ℚ :=
  let pv_kwh := strombedarf_wp * pv_deck
  let netz_kwh := max (strombedarf_wp - pv_kwh) 0
  pv_kwh * lcoe_pv + netz_kwh * strompreis

/-- `co2_wp` (src/app.py, lines 61-63): heat-pump annual emissions.
`netz_kwh = max(strombedarf_wp * (1 - pv_deck), 0)`, result `netz_kwh * co2_strom`. -/
def co2_wp (strombedarf_wp pv_deck co2_strom : ℚ) : ℚ :=
  let netz_kwh := max (strombedarf_wp * (1 - pv_deck)) 0
  netz_kwh * co2_strom

/-- Oil annual cost (src/app.py, line 141): `oel_l * preis_oel`. -/
def oel_kosten (q_h_kwh heizwert_kwh_l eta preis_oel : ℚ) : ℚ :=
  oel_verbrauch_l q_h_kwh heizwert_kwh_l eta * preis_oel

/-- Oil annual CO₂ emissions (src/app.py, line 142): `oel_l * co2_oel_kg_l`. -/
def oel_co2 (q_h_kwh heizwert_kwh_l eta co2_oel_kg_l : ℚ) : ℚ :=
  oel_verbrauch_l q_h_kwh heizwert_kwh_l eta * co2_oel_kg_l

/-- Gas annual cost (src/app.py, line 146): `gas_m3 * preis_gas`. -/
def gas_kosten (q_h_kwh heizwert_kwh_m3 eta preis_gas : ℚ) : ℚ :=
  gas_verbrauch_m3 q_h_kwh heizwert_kwh_m3 eta * preis_gas

/-- Gas annual CO₂ emissions (src/app.py, line 147): `gas_m3 * co2_gas_kg_m3`. -/
def gas_co2 (q_h_kwh heizwert_kwh_m3 eta co2_gas_kg_m3 : ℚ) : ℚ :=
  gas_verbrauch_m3 q_h_kwh heizwert_kwh_m3 eta * co2_gas_kg_m3

/-- Heat-pump utilization hours (src/app.py, line 155):
`q_h / max(wp_kw, 0.001)`. -/
def vollbenutzungsstunden_wp (q_h wp_kw : ℚ) : ℚ :=
  q_h / max wp_kw (1 / 1000)

/-- Claim C2: for every demand, coverage, grid price and solar levelized cost,
`kosten_wp` equals solarPortion × solarLevelizedCost + gridPortion × gridPrice
with solarPortion = demand × coverage and gridPortion = max(demand × (1 − coverage), 0);
in particular the code's `max(strombedarf_wp - strombedarf_wp * pv_deck, 0)` equals
the specified grid portion. -/
theorem kosten_wp_spec (s d p l : ℚ) :
    kosten_wp s d p l = (s * d) * l + max (s * (1 - d)) 0 * p := by
  have h : s - s * d = s * (1 - d) := by ring
  simp only [kosten_wp, h]

/-- Claim C9: the grid-covered quantity used by `kosten_wp`
(`max(strombedarf_wp − strombedarf_wp × pv_deck, 0)`) equals the grid-covered
quantity used by `co2_wp` (`max(strombedarf_wp × (1 − pv_deck), 0)`), so cost
and emissions price and emit over the same grid electricity amount. -/
theorem grid_portion_equiv (s d p l c : ℚ) :
    max (s - s * d) 0 = max (s * (1 - d)) 0 ∧
    kosten_wp s d p l = (s * d) * l + max (s - s * d) 0 * p ∧
    co2_wp s d c = max (s * (1 - d)) 0 * c := by
  have h : s - s * d = s * (1 - d) := by ring
  exact ⟨by rw [h], rfl, rfl⟩

/-- Claim C5: at coverage 1 the grid-covered cost term of `kosten_wp` and the result
of `co2_wp` are exactly zero (cost reduces to the solar term `s * 1 * l`), and at
coverage 0 the solar-covered cost term of `kosten_wp` is exactly zero (cost reduces
to the grid term `max s 0 * p`), for every demand, price and CO₂ factor. -/
theorem boundary_coverage (s p l c : ℚ) :
    kosten_wp s 1 p l = (s * 1) * l ∧
    co2_wp s 1 c = 0 ∧
    kosten_wp s 0 p l = max s 0 * p := by
  refine ⟨?_, ?_, ?_⟩ <;> simp [kosten_wp, co2_wp]

/-- Claim C6: the annual heat demand equals specificDemand × livingArea, is linear in
each argument (doubling either doubles the result), and at specificDemand = 110,
livingArea = 350.9 it equals exactly 38599. -/
theorem jahres_heizwaermebedarf_spec (a b : ℚ) :
    jahres_heizwaermebedarf a b = a * b ∧
    jahres_heizwaermebedarf (2 * a) b = 2 * jahres_heizwaermebedarf a b ∧
    jahres_heizwaermebedarf a (2 * b) = 2 * jahres_heizwaermebedarf a b ∧
    jahres_heizwaermebedarf 110 (3509 / 10) = 38599 := by
  refine ⟨rfl, by unfold jahres_heizwaermebedarf; ring,
    by unfold jahres_heizwaermebedarf; ring, by norm_num [jahres_heizwaermebedarf]⟩

/-- Claim C7: oil consumption equals heatDemand / (efficiency × heatingValue) and gas
consumption equals heatDemand / (efficiency × heatingValue), unconditionally — the
functions carry no internal guard, so the equation holds in particular on the valid
domain efficiency > 0, heatingValue > 0. -/
theorem verbrauch_spec (q h eta : ℚ) :
    oel_verbrauch_l q h eta = q / (eta * h) ∧
    gas_verbrauch_m3 q h eta = q / (eta * h) :=
  ⟨rfl, rfl⟩

/-- Claim C4: the utilization-hours computation equals
heatDemand / max(ratedPower, 1/1000); the divisor is positive for every rated power
(so the computation is total, including at rated power zero), and for every rated
power ≥ 1/1000 the guard is inert: the result equals heatDemand / ratedPower. -/
theorem vollbenutzungsstunden_wp_spec (q p : ℚ) :
    vollbenutzungsstunden_wp q p = q / max p (1 / 1000) ∧
    0 < max p (1 / 1000) ∧
    (1 / 1000 ≤ p → vollbenutzungsstunden_wp q p = q / p) := by
  refine ⟨rfl, lt_max_of_lt_right (by norm_num), fun h => ?_⟩
  unfold vollbenutzungsstunden_wp
  rw [max_eq_left h]

/-- Witness for C4 at the spec's scenario 4: heatDemand = 38599, ratedPower = 13. -/
theorem vollbenutzungsstunden_wp_spec_witness :
    (1 : ℚ) / 1000 ≤ 13 ∧ vollbenutzungsstunden_wp 38599 13 = 38599 / 13 :=
  ⟨by norm_num, (vollbenutzungsstunden_wp_spec 38599 13).2.2 (by norm_num)⟩

/-- Claim C8: heat-pump electricity demand equals heatDemand / JAZ for all inputs; at
heatDemand = 38599, JAZ = 3.2 it equals exactly 192995/16 = 12062.1875 (≈ 12062.2,
within 0.1), and feeding that into `kosten_wp` with coverage 0.20, grid price 0.26,
solar levelized cost 0.12 gives exactly 1119371/400 = 2798.4275 (≈ 2798.43,
within 0.01). -/
theorem wp_strombedarf_kwh_spec (q jaz : ℚ) :
    wp_strombedarf_kwh q jaz = q / jaz ∧
    wp_strombedarf_kwh 38599 (16 / 5) = 192995 / 16 ∧
    kosten_wp (192995 / 16) (1 / 5) (26 / 100) (12 / 100) = 1119371 / 400 ∧
    |wp_strombedarf_kwh 38599 (16 / 5) - 120622 / 10| ≤ 1 / 10 ∧
    |kosten_wp (192995 / 16) (1 / 5) (26 / 100) (12 / 100) - 279843 / 100| ≤ 1 / 100 := by
  have h1 : wp_strombedarf_kwh 38599 (16 / 5) = 192995 / 16 := by
    norm_num [wp_strombedarf_kwh]
  have h2 : kosten_wp (192995 / 16) (1 / 5) (26 / 100) (12 / 100) = 1119371 / 400 := by
    norm_num [kosten_wp]
  refine ⟨rfl, h1, h2, ?_, ?_⟩
  · rw [h1]; norm_num [abs_le]
  · rw [h2]; norm_num [abs_le]

/-- Claim C10: for every coverage ≥ 1 and non-negative demand, `co2_wp` returns
exactly 0 (the max guard clamps the grid portion) while `kosten_wp` returns
demand × coverage × solarLevelizedCost; for coverage > 1 the cost strictly exceeds
its value at coverage = 1 whenever demand and solar levelized cost are positive. -/
theorem coverage_above_one (s d p l c : ℚ) (hs : 0 ≤ s) (hd : 1 ≤ d) :
    co2_wp s d c = 0 ∧
    kosten_wp s d p l = s * d * l ∧
    (1 < d → 0 < s → 0 < l → kosten_wp s 1 p l < kosten_wp s d p l) := by
  have hneg : s * (1 - d) ≤ 0 := by nlinarith
  have hneg' : s - s * d ≤ 0 := by linarith [hneg]
  have hco2 : co2_wp s d c = 0 := by
    simp only [co2_wp, max_eq_right hneg, zero_mul]
  have hcost : kosten_wp s d p l = s * d * l := by
    simp only [kosten_wp, max_eq_right hneg', zero_mul, add_zero]
  refine ⟨hco2, hcost, fun h1 hs0 hl0 => ?_⟩
  have hone : kosten_wp s 1 p l = s * l := by
    simp [kosten_wp]
  rw [hone, hcost]
  nlinarith [mul_pos (mul_pos hs0 hl0) (sub_pos.mpr h1)]

/-- Witness for C10 at demand 2, coverage 2, grid price 3, solar cost 5, CO₂ factor 7. -/
theorem coverage_above_one_witness :
    co2_wp 2 2 7 = 0 ∧ kosten_wp 2 2 3 5 = 2 * 2 * 5 ∧
    kosten_wp 2 1 3 5 < kosten_wp 2 2 3 5 :=
  ⟨(coverage_above_one 2 2 3 5 7 (by norm_num) (by norm_num)).1,
   (coverage_above_one 2 2 3 5 7 (by norm_num) (by norm_num)).2.1,
   (coverage_above_one 2 2 3 5 7 (by norm_num) (by norm_num)).2.2
     (by norm_num) (by norm_num) (by norm_num)⟩

/-- Counterexample to claim C1 as stated: with demand 1, grid price 0 and solar
levelized cost 1, `kosten_wp` is strictly larger at coverage 1 than at coverage 0,
so it is not non-increasing in coverage and does not attain its minimum over [0,1]
at coverage = 1 for every price configuration. -/
theorem kosten_wp_not_antitone : kosten_wp 1 0 0 1 < kosten_wp 1 1 0 1 := by
  norm_num [kosten_wp]

/-- Claim C1 (amended): assuming demand ≥ 0, grid CO₂ factor ≥ 0 and
solarLevelizedCost ≤ gridPrice, both `kosten_wp` and `co2_wp` are monotonically
non-increasing in the coverage fraction over [0,1] and attain their minimum over
[0,1] at coverage = 1. -/
theorem kosten_co2_wp_antitone (s p l c d d' : ℚ)
    (hs : 0 ≤ s) (hc : 0 ≤ c) (hlp : l ≤ p)
    (hd0 : 0 ≤ d) (hdd : d ≤ d') (hd1 : d' ≤ 1) :
    kosten_wp s d' p l ≤ kosten_wp s d p l ∧
    co2_wp s d' c ≤ co2_wp s d c ∧
    kosten_wp s 1 p l ≤ kosten_wp s d p l ∧
    co2_wp s 1 c ≤ co2_wp s d c := by
  have hk : ∀ e : ℚ, 0 ≤ e → e ≤ 1 → kosten_wp s e p l = s * e * l + (s - s * e) * p := by
    intro e he0 he1
    have h0 : (0 : ℚ) ≤ s - s * e := by nlinarith
    simp only [kosten_wp, max_eq_left h0]
  have hco : ∀ e : ℚ, 0 ≤ e → e ≤ 1 → co2_wp s e c = s * (1 - e) * c := by
    intro e he0 he1
    have h0 : (0 : ℚ) ≤ s * (1 - e) := by nlinarith
    simp only [co2_wp, max_eq_left h0]
  have hd'0 : (0 : ℚ) ≤ d' := le_trans hd0 hdd
  have hdle1 : d ≤ 1 := le_trans hdd hd1
  refine ⟨?_, ?_, ?_, ?_⟩
  · rw [hk d hd0 hdle1, hk d' hd'0 hd1]
    nlinarith [mul_nonneg (mul_nonneg hs (sub_nonneg.mpr hdd)) (sub_nonneg.mpr hlp)]
  · rw [hco d hd0 hdle1, hco d' hd'0 hd1]
    nlinarith [mul_nonneg (mul_nonneg hs hc) (sub_nonneg.mpr hdd)]
  · rw [hk d hd0 hdle1, hk 1 (by norm_num) (by norm_num)]
    nlinarith [mul_nonneg (mul_nonneg hs (sub_nonneg.mpr hdle1)) (sub_nonneg.mpr hlp)]
  · rw [hco d hd0 hdle1, hco 1 (by norm_num) (by norm_num)]
    nlinarith [mul_nonneg (mul_nonneg hs (sub_nonneg.mpr hdle1)) hc]

/-- Witness for the amended C1 at demand 10, grid price 0.26, solar cost 0.12,
CO₂ factor 0.35, coverages 0.2 ≤ 0.5. -/
theorem kosten_co2_wp_antitone_witness :
    kosten_wp 10 (1 / 2) (26 / 100) (12 / 100) ≤ kosten_wp 10 (1 / 5) (26 / 100) (12 / 100) ∧
    co2_wp 10 (1 / 2) (35 / 100) ≤ co2_wp 10 (1 / 5) (35 / 100) ∧
    kosten_wp 10 1 (26 / 100) (12 / 100) ≤ kosten_wp 10 (1 / 5) (26 / 100) (12 / 100) ∧
    co2_wp 10 1 (35 / 100) ≤ co2_wp 10 (1 / 5) (35 / 100) :=
  kosten_co2_wp_antitone 10 (26 / 100) (12 / 100) (35 / 100) (1 / 5) (1 / 2)
    (by norm_num) (by norm_num) (by norm_num) (by norm_num) (by norm_num) (by norm_num)

/-- Counterexample to claim C3 as stated: with heat demand 1, heating value 1 and
oil price 0 (a valid, non-negative price), the annual oil cost at efficiency 1/2
equals the cost at efficiency 1 — both zero — so cost is not strictly decreasing
in efficiency for every non-negative price. -/
theorem oel_kosten_not_strict :
    (1 : ℚ) / 2 < 1 ∧ oel_kosten 1 1 (1 / 2) 0 = oel_kosten 1 1 1 0 := by
  norm_num [oel_kosten, oel_verbrauch_l]

/-- Claim C3 (amended): for heat demand > 0, heating value > 0, efficiencies in (0,1]
and non-negative price and CO₂ factor, oil and gas consumption, cost and emissions
are all non-negative, consumption is strictly decreasing in the efficiency, and cost
(resp. emissions) is strictly decreasing in the efficiency whenever the price
(resp. CO₂ factor) is strictly positive. -/
theorem oel_gas_monotone (q h eta eta' p c : ℚ)
    (hq : 0 < q) (hh : 0 < h) (he : 0 < eta) (he1 : eta ≤ 1)
    (hee : eta < eta') (he'1 : eta' ≤ 1) (hp : 0 ≤ p) (hc : 0 ≤ c) :
    0 ≤ oel_verbrauch_l q h eta ∧ 0 ≤ oel_kosten q h eta p ∧ 0 ≤ oel_co2 q h eta c ∧
    0 ≤ gas_verbrauch_m3 q h eta ∧ 0 ≤ gas_kosten q h eta p ∧ 0 ≤ gas_co2 q h eta c ∧
    oel_verbrauch_l q h eta' < oel_verbrauch_l q h eta ∧
    gas_verbrauch_m3 q h eta' < gas_verbrauch_m3 q h eta ∧
    (0 < p → oel_kosten q h eta' p < oel_kosten q h eta p) ∧
    (0 < c → oel_co2 q h eta' c < oel_co2 q h eta c) ∧
    (0 < p → gas_kosten q h eta' p < gas_kosten q h eta p) ∧
    (0 < c → gas_co2 q h eta' c < gas_co2 q h eta c) := by
  have hden : (0 : ℚ) < eta * h := mul_pos he hh
  have hnn : 0 ≤ oel_verbrauch_l q h eta := by
    unfold oel_verbrauch_l
    positivity
  have hlt : oel_verbrauch_l q h eta' < oel_verbrauch_l q h eta := by
    unfold oel_verbrauch_l
    exact div_lt_div_of_pos_left hq hden (by nlinarith)
  refine ⟨hnn, mul_nonneg hnn hp, mul_nonneg hnn hc, hnn, mul_nonneg hnn hp,
    mul_nonneg hnn hc, hlt, hlt, fun hp0 => ?_, fun hc0 => ?_, fun hp0 => ?_, fun hc0 => ?_⟩
  · exact mul_lt_mul_of_pos_right hlt hp0
  · exact mul_lt_mul_of_pos_right hlt hc0
  · exact mul_lt_mul_of_pos_right hlt hp0
  · exact mul_lt_mul_of_pos_right hlt hc0

/-- Witness for the amended C3 at the spec's scenario 2 parameters: heat demand
38599, heating value 10, efficiencies 0.85 < 0.9, oil price 1.05, CO₂ factor 2.65. -/
theorem oel_gas_monotone_witness :
    0 ≤ oel_verbrauch_l 38599 10 (85 / 100) ∧
    0 ≤ oel_kosten 38599 10 (85 / 100) (105 / 100) ∧
    0 ≤ oel_co2 38599 10 (85 / 100) (265 / 100) ∧
    0 ≤ gas_verbrauch_m3 38599 10 (85 / 100) ∧
    0 ≤ gas_kosten 38599 10 (85 / 100) (105 / 100) ∧
    0 ≤ gas_co2 38599 10 (85 / 100) (265 / 100) ∧
    oel_verbrauch_l 38599 10 (9 / 10) < oel_verbrauch_l 38599 10 (85 / 100) ∧
    gas_verbrauch_m3 38599 10 (9 / 10) < gas_verbrauch_m3 38599 10 (85 / 100) ∧
    oel_kosten 38599 10 (9 / 10) (105 / 100) < oel_kosten 38599 10 (85 / 100) (105 / 100) ∧
    oel_co2 38599 10 (9 / 10) (265 / 100) < oel_co2 38599 10 (85 / 100) (265 / 100) ∧
    gas_kosten 38599 10 (9 / 10) (105 / 100) < gas_kosten 38599 10 (85 / 100) (105 / 100) ∧
    gas_co2 38599 10 (9 / 10) (265 / 100) < gas_co2 38599 10 (85 / 100) (265 / 100) := by
  have h := oel_gas_monotone 38599 10 (85 / 100) (9 / 10) (105 / 100) (265 / 100)
    (by norm_num) (by norm_num) (by norm_num) (by norm_num) (by norm_num) (by norm_num)
    (by norm_num) (by norm_num)
  exact ⟨h.1, h.2.1, h.2.2.1, h.2.2.2.1, h.2.2.2.2.1, h.2.2.2.2.2.1, h.2.2.2.2.2.2.1,
    h.2.2.2.2.2.2.2.1, h.2.2.2.2.2.2.2.2.1 (by norm_num), h.2.2.2.2.2.2.2.2.2.1 (by norm_num),
    h.2.2.2.2.2.2.2.2.2.2.1 (by norm_num), h.2.2.2.2.2.2.2.2.2.2.2 (by norm_num)⟩

end HeizApp
